import Mathlib

/-!
Verification development for the billing core of the SAAS-Backend
repository: coupons, invoices, payments, the payment-provider layer and
the webhook handler, shallowly embedded from the Python source
(`src/backend/src/billing/models.py`, `views.py`, `payments/dummy.py`,
`src/backend/src/core/utils.py`).

Conventions of the embedding:
* Django model instances become Lean structures; money fields declared
  `PositiveIntegerField` become `Nat` (the one exception is the invoice
  total written by the finalize view, which is computed in Python `int`
  arithmetic and can go negative, so it is an `Int`).
* Timestamps (`DateTimeField`, `timezone.now()`) become `Nat` instants,
  threaded explicitly where the Python code reads the clock.
* Python truthiness of optional integer fields (`None` and `0` falsy) is
  made explicit; a `datetime` value is always truthy in Python, so an
  `Option Nat` timestamp is truthy exactly when it is `some`.
* Fallible request handlers become `Except`-valued functions; an
  exception raised inside `transaction.atomic()` rolls the transaction
  back, so an `Except.error` result carries no updated state.
-/

deriving instance DecidableEq for Except

namespace SaaS

/-- Python truthiness of an optional integer field: `None` and `0` are
falsy, every other integer is truthy. -/
def pyTruthy : Option Nat → Bool
  | none => false
  | some n => n != 0

/-- `Coupon.DISCOUNT_TYPE_CHOICES` in `billing/models.py`: the code's
kinds are `percent` and `amount` (the spec calls the latter `fixed`). -/
inductive DiscountType
  | percent
  | amount
  deriving DecidableEq, Repr

/-- The `Coupon` model of `billing/models.py` (the fields the billing
logic reads).  Field validators declare `percent_off` in `1..100` and the
other amounts nonnegative; validators are recorded as hypotheses of the
theorems, not baked into the type. -/
structure Coupon where
  code : String
  discount_type : DiscountType
  percent_off : Option Nat
  amount_off_cents : Option Nat
  currency : String
  expires_at : Option Nat
  max_redemptions : Option Nat
  times_redeemed : Nat
  active : Bool
  deriving DecidableEq, Repr

/-- `Coupon.is_valid` (`billing/models.py` lines 154-165), with the call
to `timezone.now()` made an explicit argument `now`.

```python
if not self.active: return False
if self.expires_at and timezone.now() > self.expires_at: return False
if self.max_redemptions and self.times_redeemed >= self.max_redemptions:
    return False
return True
```

`self.expires_at` is a `datetime`, always truthy when not `None`;
`self.max_redemptions` is an integer, falsy when `None` or `0`. -/
def Coupon.is_valid (c : Coupon) (now : Nat) : Bool :=
  if !c.active then
    false
  else if (match c.expires_at with
           | some e => decide (now > e)
           | none => false) then
    false
  else if pyTruthy c.max_redemptions
          && decide (c.times_redeemed ≥ c.max_redemptions.getD 0) then
    false
  else
    true

/-- `Coupon.calculate_discount` (`billing/models.py` lines 167-177).

```python
if not self.is_valid(): return 0
if self.discount_type == 'percent' and self.percent_off:
    return int((amount_cents * self.percent_off) / 100)
elif self.discount_type == 'amount' and self.amount_off_cents:
    return min(self.amount_off_cents, amount_cents)
return 0
```

`int((amount_cents * percent_off) / 100)` is Python float true division
followed by truncation toward zero; for the nonnegative cent amounts the
field validators allow it computes exactly `amount_cents * percent_off / 100`
in truncating integer division, which is what the embedding uses. -/
def Coupon.calculate_discount (c : Coupon) (now : Nat) (amount_cents : Nat) : Nat :=
  if !c.is_valid now then
    0
  else if c.discount_type = .percent && pyTruthy c.percent_off then
    amount_cents * c.percent_off.getD 0 / 100
  else if c.discount_type = .amount && pyTruthy c.amount_off_cents then
    min (c.amount_off_cents.getD 0) amount_cents
  else
    0

/-- `Invoice.STATUS_CHOICES` in `billing/models.py`. -/
inductive InvoiceStatus
  | draft
  | «open»
  | paid
  | void
  | uncollectible
  deriving DecidableEq, Repr

/-- The `Invoice` model of `billing/models.py` (the fields the billing
logic reads and writes).  `total_cents` is declared
`PositiveIntegerField`, but the finalize view assigns it the result of
unclamped Python `int` arithmetic, so it is embedded as `Int`. -/
structure Invoice where
  number : String
  subtotal_cents : Nat
  tax_cents : Nat
  discount_cents : Nat
  total_cents : Int
  currency : String
  status : InvoiceStatus
  paid_at : Option Nat
  deriving DecidableEq, Repr

/-- The `InvoiceItem` model of `billing/models.py`: description,
quantity (validator `MinValueValidator(1)`), unit amount in cents. -/
structure InvoiceItem where
  description : String
  quantity : Nat
  unit_amount_cents : Nat
  deriving DecidableEq, Repr

/-- `InvoiceItem.total_amount_cents` (`billing/models.py` lines 478-481):
`quantity * unit_amount_cents`. -/
def InvoiceItem.total_amount_cents (it : InvoiceItem) : Nat :=
  it.quantity * it.unit_amount_cents

/-- `Invoice.finalize` (`billing/models.py` lines 433-437): sets status
to `open` when the invoice is a draft, otherwise silently does nothing.

```python
if self.status == 'draft':
    self.status = 'open'
    self.save()
``` -/
def Invoice.finalize (inv : Invoice) : Invoice :=
  if inv.status = .draft then { inv with status := .«open» } else inv

/-- `Invoice.mark_as_paid` (`billing/models.py` lines 439-443):
unconditionally sets status to `paid` and `paid_at` to the current time,
with no already-paid guard and no notification call.

```python
self.status = 'paid'
self.paid_at = timezone.now()
self.save()
``` -/
def Invoice.mark_as_paid (inv : Invoice) (now : Nat) : Invoice :=
  { inv with status := .paid, paid_at := some now }

/-- `Invoice.void` (`billing/models.py` lines 445-448): unconditionally
sets status to `void`, with no guard on the current status.

```python
self.status = 'void'
self.save()
``` -/
def Invoice.void (inv : Invoice) : Invoice :=
  { inv with status := .void }

/-- `calculate_tax_amount` (`core/utils.py` lines 25-31) at the default
rate: `settings.TAX_RATE` defaults to `8.5`, and
`int((subtotal_cents * 8.5) / 100)` truncates toward zero.  `8.5` is
exactly `17/2` in binary floating point, so for every cent amount below
`2^45` the float computation agrees with exact truncating division
`subtotal_cents * 17 / 200`, which is what the embedding uses. -/
def calculate_tax_amount (subtotal_cents : Nat) : Nat :=
  subtotal_cents * 17 / 200

/-- The error answer of a rejected request: the finalize view returns
HTTP 400 (`'Invoice is not in draft status'`), the spec's
`InvalidStateError`. -/
inductive FinalizeError
  | notDraft
  deriving DecidableEq, Repr

namespace InvoiceDetailView

/-- `InvoiceDetailView.finalize` (`billing/views.py` lines 164-189).
Checks `invoice.status != 'draft'` and rejects with HTTP 400 before any
mutation; otherwise recomputes the amounts and calls the model's
`Invoice.finalize`:

```python
subtotal_cents = sum(item.total_amount_cents for item in invoice.items.all())
tax_cents = calculate_tax_amount(subtotal_cents)
discount_cents = invoice.discount_cents
total_cents = subtotal_cents + tax_cents - discount_cents
```

Note the total is plain subtraction in Python integers, with no clamp
at zero. -/
def finalize (inv : Invoice) (items : List InvoiceItem) :
    Except FinalizeError Invoice :=
  if inv.status ≠ .draft then
    .error .notDraft
  else
    let subtotal_cents := (items.map InvoiceItem.total_amount_cents).sum
    let tax_cents := calculate_tax_amount subtotal_cents
    let discount_cents := inv.discount_cents
    let total_cents : Int := (subtotal_cents : Int) + tax_cents - discount_cents
    .ok (Invoice.finalize
      { inv with subtotal_cents := subtotal_cents, tax_cents := tax_cents,
                 total_cents := total_cents })

end InvoiceDetailView

/-- `Payment.STATUS_CHOICES` in `billing/models.py`. -/
inductive PaymentStatus
  | requires_action
  | succeeded
  | failed
  | canceled
  deriving DecidableEq, Repr

/-- The `Payment` model of `billing/models.py` (the fields the billing
logic reads); the invoice is referenced by its unique number. -/
structure Payment where
  invoice_number : String
  provider : String
  provider_ref : String
  amount_cents : Nat
  currency : String
  status : PaymentStatus
  processed_at : Option Nat
  failure_reason : String
  deriving DecidableEq, Repr

/-- The refund dictionary returned by `DummyProvider.refund`
(`billing/payments/dummy.py` lines 65-86): its `metadata` sub-dict is
flattened into the `payment_id` and `original_amount_cents` fields. -/
structure RefundResult where
  id : String
  status : String
  amount_cents : Nat
  currency : String
  processed_at : Nat
  provider_ref : String
  payment_id : String
  original_amount_cents : Nat
  deriving DecidableEq, Repr

/-- The normalized event dictionary produced by `parse_webhook` and
consumed by `PaymentWebhookView.process_webhook_event`; the nested
`data.object` sub-dict is flattened into the `data_object_*` fields. -/
structure NormalizedEvent where
  id : String
  type : String
  created : Nat
  data_object_id : String
  data_object_status : String
  data_object_amount : Nat
  data_object_currency : String
  deriving DecidableEq, Repr

namespace DummyProvider

/-- `DummyProvider.refund` (`billing/payments/dummy.py` lines 65-86).
The fresh `uuid4` hex fragment and the `timezone.now()` reading are
explicit arguments.  The requested amount is taken as given — there is
no comparison against `payment.amount_cents` anywhere in the body — and
`None` defaults to the full payment amount:

```python
if amount_cents is None:
    amount_cents = payment.amount_cents
refund_data = {'id': refund_id, 'status': 'succeeded',
               'amount_cents': amount_cents, ...}
return refund_data
``` -/
def refund (payment : Payment) (amount_cents : Option Nat)
    (freshRef : String) (now : Nat) : RefundResult :=
  let refund_id := "dummy_refund_" ++ freshRef
  let amt := amount_cents.getD payment.amount_cents
  { id := refund_id
    status := "succeeded"
    amount_cents := amt
    currency := payment.currency
    processed_at := now
    provider_ref := refund_id
    payment_id := payment.provider_ref
    original_amount_cents := payment.amount_cents }

/-- `DummyProvider.parse_webhook` (`billing/payments/dummy.py` lines
88-107).  The body never reads `payload` or `signature` and raises
nothing; it fabricates a fresh `payment_intent.succeeded` event from two
`uuid4` hex fragments (explicit arguments `freshEventRef`,
`freshObjectRef`) and the current clock reading `now` (`time.time()`):

```python
event_data = {
    'id': f"dummy_event_{uuid.uuid4().hex[:8]}",
    'type': 'payment_intent.succeeded',
    'created': int(time.time()),
    'data': {'object': {'id': f"dummy_payment_{uuid.uuid4().hex[:8]}",
                        'status': 'succeeded',
                        'amount': 1000, 'currency': 'usd'}}}
return event_data
``` -/
def parse_webhook (payload : List Nat) (signature : String)
    (freshEventRef freshObjectRef : String) (now : Nat) : NormalizedEvent :=
  let _ := payload
  let _ := signature
  { id := "dummy_event_" ++ freshEventRef
    type := "payment_intent.succeeded"
    created := now
    data_object_id := "dummy_payment_" ++ freshObjectRef
    data_object_status := "succeeded"
    data_object_amount := 1000
    data_object_currency := "usd" }

end DummyProvider

namespace PaymentWebhookView

/-- `PaymentWebhookView.process_webhook_event` (`billing/views.py` lines
362-373), applied to the persisted billing state (all payments and all
invoices).  The Python body dispatches on the event type, binds the
event's object id to a local, and then executes `pass`: no payment and
no invoice is looked up or modified on any branch.

```python
event_type = event_data.get('type')
if event_type == 'payment_intent.succeeded':
    payment_id = event_data['data']['object']['id']
    # Update payment status, etc.
    pass
elif event_type == 'payment_intent.payment_failed':
    # Handle failed payment
    pass
``` -/
def process_webhook_event (payments : List Payment) (invoices : List Invoice)
    (event_data : NormalizedEvent) : List Payment × List Invoice :=
  if event_data.type = "payment_intent.succeeded" then
    let _payment_id := event_data.data_object_id
    (payments, invoices)
  else if event_data.type = "payment_intent.payment_failed" then
    (payments, invoices)
  else
    (payments, invoices)

end PaymentWebhookView

/-- `Plan.INTERVAL_CHOICES` in `billing/models.py`. -/
inductive Interval
  | monthly
  | yearly
  deriving DecidableEq, Repr

/-- The `Plan` model of `billing/models.py` (the fields subscription
creation reads). -/
structure Plan where
  name : String
  price_cents : Nat
  currency : String
  interval : Interval
  trial_days : Nat
  active : Bool
  deriving DecidableEq, Repr

/-- `Subscription.STATUS_CHOICES` in `billing/models.py`. -/
inductive SubStatus
  | trialing
  | active
  | past_due
  | canceled
  | unpaid
  deriving DecidableEq, Repr

/-- The `Subscription` model of `billing/models.py` (the fields
subscription creation writes); the applied coupon is referenced by its
unique code. -/
structure Subscription where
  plan : Plan
  status : SubStatus
  current_period_start : Nat
  current_period_end : Nat
  cancel_at_period_end : Bool
  coupon : Option String
  deriving DecidableEq, Repr

/-- The exception escaping `SubscriptionListCreateView.perform_create`
on the bad-coupon path.  Line 75 of `billing/views.py` executes
`raise serializers.ValidationError("Invalid or expired coupon code")`,
but the module never binds the name `serializers` (it imports individual
names from `src.billing.serializers`), so what Python actually raises
there is a `NameError`, surfaced as an unhandled server error rather
than a DRF `ValidationError`. -/
inductive CreateError
  | nameError
  deriving DecidableEq, Repr

namespace SubscriptionListCreateView

/-- `SubscriptionListCreateView.perform_create` (`billing/views.py`
lines 54-100), restricted to the billing state it touches: the coupon
table and the subscription table.  The whole body runs inside
`transaction.atomic()`, so raising rolls everything back: an
`Except.error` result carries no updated state.

```python
coupon = None
coupon_code = serializer.validated_data.get('coupon_code')
if coupon_code:
    try:
        coupon = Coupon.objects.get(code=coupon_code, active=True)
        if not coupon.is_valid():
            raise Coupon.DoesNotExist
    except Coupon.DoesNotExist:
        raise serializers.ValidationError("Invalid or expired coupon code")
now = timezone.now()
...
subscription = serializer.save(...)
if coupon:
    coupon.times_redeemed += 1
    coupon.save()
``` -/
def perform_create (coupons : List Coupon) (subscriptions : List Subscription)
    (plan : Plan) (coupon_code : Option String) (now : Nat) :
    Except CreateError (List Coupon × List Subscription) :=
  let couponRes : Except CreateError (Option Coupon) :=
    match coupon_code with
    | none => .ok none
    | some code =>
      match coupons.find? (fun c => c.code == code && c.active) with
      | none => .error .nameError
      | some c => if c.is_valid now then .ok (some c) else .error .nameError
  match couponRes with
  | .error e => .error e
  | .ok coupon =>
    let period_end :=
      now + (if plan.interval = .monthly then 30 * 86400 else 365 * 86400)
    let status := if plan.trial_days > 0 then SubStatus.trialing else .active
    let sub : Subscription :=
      { plan := plan, status := status, current_period_start := now,
        current_period_end := period_end, cancel_at_period_end := false,
        coupon := coupon.map Coupon.code }
    let coupons' :=
      match coupon with
      | none => coupons
      | some c =>
        coupons.map fun d =>
          if d.code == c.code then
            { d with times_redeemed := d.times_redeemed + 1 }
          else d
    .ok (coupons', subscriptions ++ [sub])

end SubscriptionListCreateView

/-! Concrete instances used by the individual claim theorems. -/

/-- A draft invoice with no items whose carried discount (100 cents)
exceeds its subtotal plus tax. -/
def invoiceC1 : Invoice :=
  { number := "INV-2024-0100", subtotal_cents := 500, tax_cents := 42,
    discount_cents := 100, total_cents := 0, currency := "USD",
    status := .draft, paid_at := none }

/-- A pending payment awaiting webhook reconciliation. -/
def paymentC2 : Payment :=
  { invoice_number := "INV-2024-0400", provider := "dummy",
    provider_ref := "pi_123", amount_cents := 2566, currency := "USD",
    status := .requires_action, processed_at := none, failure_reason := "" }

/-- The open invoice the payment `paymentC2` belongs to. -/
def invoiceC2 : Invoice :=
  { number := "INV-2024-0400", subtotal_cents := 2900, tax_cents := 246,
    discount_cents := 580, total_cents := 2566, currency := "USD",
    status := .«open», paid_at := none }

/-- A `payment_intent.succeeded` webhook event for `paymentC2`'s
provider reference. -/
def eventC2 : NormalizedEvent :=
  { id := "evt_1", type := "payment_intent.succeeded", created := 100,
    data_object_id := "pi_123", data_object_status := "succeeded",
    data_object_amount := 2566, data_object_currency := "usd" }

/-- A valid 20-percent coupon (the spec's `WELCOME20` scenario). -/
def couponC3 : Coupon :=
  { code := "WELCOME20", discount_type := .percent, percent_off := some 20,
    amount_off_cents := none, currency := "USD", expires_at := none,
    max_redemptions := none, times_redeemed := 0, active := true }

/-- An already-finalized (open) invoice. -/
def invoiceC4 : Invoice :=
  { number := "INV-2024-0500", subtotal_cents := 2900, tax_cents := 246,
    discount_cents := 0, total_cents := 3146, currency := "USD",
    status := .«open», paid_at := none }

/-- An invoice already paid at instant 5. -/
def invoiceC5 : Invoice :=
  { number := "INV-2024-0200", subtotal_cents := 2900, tax_cents := 246,
    discount_cents := 0, total_cents := 3146, currency := "USD",
    status := .paid, paid_at := some 5 }

/-- Another paid invoice, subject of the `void` claim. -/
def invoiceC6 : Invoice :=
  { number := "INV-2024-0600", subtotal_cents := 1000, tax_cents := 85,
    discount_cents := 0, total_cents := 1085, currency := "USD",
    status := .paid, paid_at := some 9 }

/-- A succeeded payment of 1000 cents, subject of the refund claim. -/
def paymentC7 : Payment :=
  { invoice_number := "INV-2024-0300", provider := "dummy",
    provider_ref := "dummy_payment_ab12cd34", amount_cents := 1000,
    currency := "USD", status := .succeeded, processed_at := some 50,
    failure_reason := "" }

/-- A plan used to exercise subscription creation. -/
def planC8 : Plan :=
  { name := "Pro", price_cents := 2900, currency := "USD",
    interval := .monthly, trial_days := 7, active := true }

/-- Coupon validity as the spec words it (refinement target for the C9
claim): active ∧ (no expiry or now < expiry) ∧ (no max-redemption count
or redeemed < max). -/
def is_valid_claimed (c : Coupon) (now : Nat) : Bool :=
  c.active
  && (match c.expires_at with
      | none => true
      | some e => decide (now < e))
  && (match c.max_redemptions with
      | none => true
      | some m => decide (c.times_redeemed < m))

/-- An active coupon that expires exactly at instant 10. -/
def couponC9 : Coupon :=
  { code := "EXPIRES10", discount_type := .percent, percent_off := some 10,
    amount_off_cents := none, currency := "USD", expires_at := some 10,
    max_redemptions := none, times_redeemed := 0, active := true }

/-- An active coupon with `max_redemptions = 0` already redeemed 5
times. -/
def couponC9max0 : Coupon :=
  { code := "MAXZERO", discount_type := .percent, percent_off := some 10,
    amount_off_cents := none, currency := "USD", expires_at := none,
    max_redemptions := some 0, times_redeemed := 5, active := true }

/-! Claim theorems. -/

/-- C1: the finalize view computes subtotal and tax as the claim states,
but the total is plain `subtotal + tax − discount` with NO clamp at
zero.  Evaluating the code at the failing input — a draft invoice with
no items and a carried discount of 100 cents — yields a stored total of
−100, where the claim requires `max(0, 0 + 0 − 100) = 0`. -/
theorem finalize_total_not_clamped :
    InvoiceDetailView.finalize invoiceC1 []
      = .ok { invoiceC1 with subtotal_cents := 0, tax_cents := 0,
                             total_cents := -100, status := .«open» }
    ∧ (InvoiceDetailView.finalize invoiceC1 []).map Invoice.total_cents
        ≠ .ok (max 0 ((0 : Int) + (0 : Int) - (invoiceC1.discount_cents : Int))) := by
  constructor
  · decide
  · decide

/-- C2: `process_webhook_event` is a stub.  On a
`payment_intent.succeeded` event whose object id matches the provider
reference of a pending payment, the handler leaves the payment and
invoice tables exactly as they were: the payment never becomes
`succeeded` and the invoice never becomes `paid`, contradicting the
claimed reconciliation. -/
theorem process_webhook_event_is_noop :
    PaymentWebhookView.process_webhook_event [paymentC2] [invoiceC2] eventC2
      = ([paymentC2], [invoiceC2])
    ∧ eventC2.data_object_id = paymentC2.provider_ref
    ∧ paymentC2.status ≠ .succeeded
    ∧ invoiceC2.status ≠ .paid := by
  refine ⟨rfl, rfl, ?_, ?_⟩ <;> decide

/-- C4: the finalize view rejects every non-draft invoice with the
`InvalidStateError` answer (HTTP 400, before any mutation — the error
result carries no updated invoice), and after a successful finalize the
invoice is `open`, so a second finalize is rejected the same way. -/
theorem finalize_blocks_non_draft (inv : Invoice) (items : List InvoiceItem) :
    (inv.status ≠ .draft →
      InvoiceDetailView.finalize inv items = .error .notDraft)
    ∧ (∀ inv₂ items₂, InvoiceDetailView.finalize inv items = .ok inv₂ →
        inv₂.status = .«open»
        ∧ InvoiceDetailView.finalize inv₂ items₂ = .error .notDraft) := by
  constructor
  · intro h
    simp [InvoiceDetailView.finalize, h]
  · intro inv₂ items₂ h
    by_cases hd : inv.status = .draft
    · simp [InvoiceDetailView.finalize, hd, Invoice.finalize] at h
      have hst : inv₂.status = .«open» := by
        rw [← h]
      exact ⟨hst, by simp [InvoiceDetailView.finalize, hst]⟩
    · simp [InvoiceDetailView.finalize, hd] at h

/-- C4 witness: finalizing the already-open invoice `invoiceC4` is
rejected. -/
theorem finalize_blocks_non_draft_witness :
    InvoiceDetailView.finalize invoiceC4 [] = .error .notDraft :=
  (finalize_blocks_non_draft invoiceC4 []).1 (by decide)

/-- C5 counterexample: `mark_as_paid` on the already-paid `invoiceC5`
(paid at instant 5), called at instant 7, is NOT a no-op — `paid_at` is
overwritten, so the invoice state changes. -/
theorem mark_as_paid_not_noop :
    invoiceC5.status = .paid
    ∧ (invoiceC5.mark_as_paid 7).paid_at ≠ invoiceC5.paid_at
    ∧ invoiceC5.mark_as_paid 7 ≠ invoiceC5 := by
  refine ⟨rfl, ?_, ?_⟩ <;> decide

/-- C5 amended: `mark_as_paid` has no already-paid guard.  On an
already-paid invoice it raises no error and the status stays `paid`,
but it overwrites `paid_at` with the current time; no other field
changes and the model method performs no notification call (idempotency
is left to its callers). -/
theorem mark_as_paid_overwrites_paid_at (inv : Invoice) (now : Nat)
    (h : inv.status = .paid) :
    inv.mark_as_paid now = { inv with paid_at := some now }
    ∧ (inv.mark_as_paid now).status = .paid
    ∧ (inv.mark_as_paid now).paid_at = some now := by
  refine ⟨?_, rfl, rfl⟩
  cases inv
  simp_all [Invoice.mark_as_paid]

/-- C5 witness: the amended statement evaluated on `invoiceC5` at
instant 7. -/
theorem mark_as_paid_overwrites_paid_at_witness :
    invoiceC5.mark_as_paid 7 = { invoiceC5 with paid_at := some 7 }
    ∧ (invoiceC5.mark_as_paid 7).status = .paid
    ∧ (invoiceC5.mark_as_paid 7).paid_at = some 7 :=
  mark_as_paid_overwrites_paid_at invoiceC5 7 (by decide)

/-- C6 counterexample: voiding the paid invoice `invoiceC6` raises no
error and moves it out of `paid` — a paid invoice CAN become void. -/
theorem void_paid_counterexample :
    invoiceC6.status = .paid ∧ (invoiceC6.void).status ≠ .paid := by
  refine ⟨rfl, ?_⟩
  decide

/-- C6 amended: `Invoice.void` unconditionally sets the status to
`void` — there is no guard on the current status and no error path, so
it applies to paid invoices as well; no other field changes. -/
theorem void_unconditional (inv : Invoice) :
    inv.void = { inv with status := .void }
    ∧ (inv.void).status = .void :=
  ⟨rfl, rfl⟩

/-- C7 counterexample: refunding 2000 cents against the 1000-cent
payment `paymentC7` is NOT rejected — the dummy provider returns a
succeeded refund record over the requested amount. -/
theorem refund_over_amount_counterexample :
    paymentC7.amount_cents < (DummyProvider.refund paymentC7 (some 2000) "ffffffff" 60).amount_cents
    ∧ (DummyProvider.refund paymentC7 (some 2000) "ffffffff" 60).status = "succeeded" := by
  refine ⟨?_, rfl⟩
  decide

/-- C7 amended: `DummyProvider.refund` performs no validation of the
requested amount — any amount, including one exceeding the original
payment amount, is accepted and echoed in a succeeded refund record;
when no amount is given it defaults to the full original payment
amount. -/
theorem refund_no_validation (p : Payment) (amt : Option Nat)
    (r : String) (now : Nat) :
    (DummyProvider.refund p amt r now).amount_cents = amt.getD p.amount_cents
    ∧ (DummyProvider.refund p none r now).amount_cents = p.amount_cents
    ∧ (DummyProvider.refund p amt r now).status = "succeeded"
    ∧ (DummyProvider.refund p amt r now).original_amount_cents = p.amount_cents :=
  ⟨rfl, rfl, rfl, rfl⟩

/-- C3: `calculate_discount` returns 0 on an invalid coupon; on a valid
percent coupon whose `percent_off` is set it returns
`⌊amount_cents * percent_off / 100⌋`; on a valid amount ("fixed")
coupon whose `amount_off_cents` is set it returns
`min amount_off_cents amount_cents`; and under the field validators'
bound `1 ≤ percent_off ≤ 100` the discount never exceeds
`amount_cents`. -/
theorem calculate_discount_spec (c : Coupon) (now amount_cents : Nat)
    (hp : ∀ p, c.percent_off = some p → 1 ≤ p ∧ p ≤ 100) :
    (c.is_valid now = false → c.calculate_discount now amount_cents = 0)
    ∧ (∀ p, c.is_valid now = true → c.discount_type = .percent →
        c.percent_off = some p →
        c.calculate_discount now amount_cents = amount_cents * p / 100)
    ∧ (∀ a, c.is_valid now = true → c.discount_type = .amount →
        c.amount_off_cents = some a →
        c.calculate_discount now amount_cents = min a amount_cents)
    ∧ c.calculate_discount now amount_cents ≤ amount_cents := by
  refine ⟨fun h => ?_, fun p hv ht hpo => ?_, fun a hv ht hao => ?_, ?_⟩
  · simp [Coupon.calculate_discount, h]
  · have h1 : 1 ≤ p := (hp p hpo).1
    have hne : (p != 0) = true := by
      simp
      omega
    simp [Coupon.calculate_discount, hv, ht, hpo, pyTruthy, hne]
  · by_cases ha0 : a = 0
    · subst ha0
      simp [Coupon.calculate_discount, hv, ht, hao, pyTruthy]
    · have hne : (a != 0) = true := by
        simp
        omega
      simp [Coupon.calculate_discount, hv, ht, hao, pyTruthy, hne]
  · unfold Coupon.calculate_discount
    split
    · exact Nat.zero_le _
    · split
      · rename_i hcond
        cases hpo : c.percent_off with
        | none => simp [pyTruthy, hpo] at hcond
        | some p =>
          have hple : p ≤ 100 := (hp p hpo).2
          have hmul : amount_cents * p ≤ amount_cents * 100 :=
            Nat.mul_le_mul_left _ hple
          have hdiv : amount_cents * p / 100 ≤ amount_cents * 100 / 100 :=
            Nat.div_le_div_right hmul
          have hcan : amount_cents * 100 / 100 = amount_cents :=
            Nat.mul_div_cancel _ (by omega)
          rw [hcan] at hdiv
          simpa using hdiv
      · split
        · exact Nat.min_le_right _ _
        · exact Nat.zero_le _

/-- C3 witness: the spec scenario — `WELCOME20`, 20 percent off a
2900-cent amount — discounts 580 cents, which does not exceed 2900. -/
theorem calculate_discount_spec_witness :
    couponC3.calculate_discount 0 2900 = 2900 * 20 / 100
    ∧ couponC3.calculate_discount 0 2900 ≤ 2900 :=
  have h := calculate_discount_spec couponC3 0 2900 (by
    intro p hp
    simp [couponC3] at hp
    omega)
  ⟨h.2.1 20 (by decide) (by decide) (by decide), h.2.2.2⟩

/-- C8: with a supplied coupon code whose lookup fails or whose coupon
is invalid, `perform_create` raises before any subscription is created
or any redemption counter incremented (the `transaction.atomic()` block
rolls back, so the error result carries no state) — but what it raises
is a `NameError` (`serializers` is unbound at the raise site), not the
claimed `ValidationError`. -/
theorem perform_create_bad_coupon (coupons : List Coupon)
    (subscriptions : List Subscription) (plan : Plan) (code : String)
    (now : Nat)
    (h : ∀ c, coupons.find? (fun d => d.code == code && d.active) = some c →
          c.is_valid now = false) :
    SubscriptionListCreateView.perform_create coupons subscriptions plan
        (some code) now
      = .error .nameError := by
  unfold SubscriptionListCreateView.perform_create
  cases hf : coupons.find? (fun d => d.code == code && d.active) with
  | none => simp [hf]
  | some c => simp [hf, h c hf]

/-- C8 witness: creating a subscription against an empty coupon table
with coupon code `MISSING` fails with the unbound-name error and
returns no state. -/
theorem perform_create_bad_coupon_witness :
    SubscriptionListCreateView.perform_create [] [] planC8
        (some "MISSING") 0
      = .error .nameError :=
  perform_create_bad_coupon [] [] planC8 "MISSING" 0 (by
    intro c hc
    simp at hc)

/-- C9 counterexample: `is_valid` diverges from the claimed
characterization at both boundary cases — a coupon expiring exactly now
is still valid in the code (the check is `now > expires_at`, the claim
requires `now < expires_at`), and `max_redemptions = 0` is falsy in
Python so the redemption cap is skipped entirely (the claim requires
`times_redeemed < 0`, i.e. invalid). -/
theorem is_valid_claim_counterexample :
    couponC9.is_valid 10 ≠ is_valid_claimed couponC9 10
    ∧ couponC9max0.is_valid 0 ≠ is_valid_claimed couponC9max0 0 := by
  refine ⟨?_, ?_⟩ <;> decide

/-- C9 amended: `is_valid` returns true iff the coupon is active, and
(no expiry or `now ≤ expires_at`), and (`max_redemptions` is absent or
zero, or `times_redeemed < max_redemptions`). -/
theorem is_valid_characterization (c : Coupon) (now : Nat) :
    c.is_valid now = true ↔
      (c.active = true
       ∧ (∀ e, c.expires_at = some e → now ≤ e)
       ∧ (∀ m, c.max_redemptions = some m →
            m = 0 ∨ c.times_redeemed < m)) := by
  cases hA : c.active <;> cases hE : c.expires_at <;>
    cases hM : c.max_redemptions <;>
      simp [Coupon.is_valid, pyTruthy, hA, hE, hM]

/-- C9 witness: the amended characterization evaluated on the coupon
expiring at instant 10, taken at instant 10 (valid: `10 ≤ 10`). -/
theorem is_valid_characterization_witness :
    couponC9.is_valid 10 = true ↔
      (couponC9.active = true
       ∧ (∀ e, couponC9.expires_at = some e → 10 ≤ e)
       ∧ (∀ m, couponC9.max_redemptions = some m →
            m = 0 ∨ couponC9.times_redeemed < m)) :=
  is_valid_characterization couponC9 10

/-- C10: the dummy provider's `parse_webhook` never raises (it is a
total function: no signature and no payload check exists in its body),
ignores both arguments — any two payload/signature pairs yield the same
event for the same fresh randomness — and fabricates a
`payment_intent.succeeded` event whose object id is the freshly
generated random reference, so distinct draws of the randomness yield
distinct events: the output is neither derived from the input nor
deterministic. -/
theorem parse_webhook_fabricates (p₁ p₂ : List Nat) (s₁ s₂ : String)
    (fe fo fe' fo' : String) (now : Nat) (h : fo ≠ fo') :
    DummyProvider.parse_webhook p₁ s₁ fe fo now
      = DummyProvider.parse_webhook p₂ s₂ fe fo now
    ∧ (DummyProvider.parse_webhook p₁ s₁ fe fo now).type
        = "payment_intent.succeeded"
    ∧ (DummyProvider.parse_webhook p₁ s₁ fe fo now).data_object_id
        = "dummy_payment_" ++ fo
    ∧ (DummyProvider.parse_webhook p₁ s₁ fe fo now).data_object_id
        ≠ (DummyProvider.parse_webhook p₁ s₁ fe' fo' now).data_object_id := by
  refine ⟨rfl, rfl, rfl, ?_⟩
  intro hEq
  apply h
  have hd : ("dummy_payment_" ++ fo).data = ("dummy_payment_" ++ fo').data := by
    simp only [DummyProvider.parse_webhook] at hEq
    exact congrArg String.data hEq
  simp [String.data_append] at hd
  exact String.ext hd

/-- C10 witness: two concrete webhook calls with different payloads and
signatures but the same randomness agree, and different randomness
yields a different fabricated object id. -/
theorem parse_webhook_fabricates_witness :
    DummyProvider.parse_webhook [1, 2] "sigA" "aaaaaaaa" "bbbbbbbb" 99
      = DummyProvider.parse_webhook [] "sigB" "aaaaaaaa" "bbbbbbbb" 99
    ∧ (DummyProvider.parse_webhook [1, 2] "sigA" "aaaaaaaa" "bbbbbbbb" 99).type
        = "payment_intent.succeeded"
    ∧ (DummyProvider.parse_webhook [1, 2] "sigA" "aaaaaaaa" "bbbbbbbb" 99).data_object_id
        = "dummy_payment_" ++ "bbbbbbbb"
    ∧ (DummyProvider.parse_webhook [1, 2] "sigA" "aaaaaaaa" "bbbbbbbb" 99).data_object_id
        ≠ (DummyProvider.parse_webhook [1, 2] "sigA" "cccccccc" "dddddddd" 99).data_object_id :=
  parse_webhook_fabricates [1, 2] [] "sigA" "sigB" "aaaaaaaa" "bbbbbbbb"
    "cccccccc" "dddddddd" 99 (by decide)

end SaaS
